import Mathlib

/-
  Verification development for the rewriteX repository.

  This file gives a shallow embedding of the request-processing pipeline in
  src/app/api/process/route.ts (constants, request validation, prompt
  construction, generation-parameter selection, and the error classifier of
  the catch block), and of the history persistence helpers in
  src/lib/historyUtils.ts, together with theorems about them.

  Conventions of the embedding:
  - JS strings are Lean `String`s; string length is counted in characters
    (the inputs considered here are ASCII, where this agrees with JS).
  - JS values that may be `undefined` are `Option`s.
  - The JSON-ish values stored in `ErrorResponse.details` are modelled by
    the first-order type `JVal` below, covering exactly the shapes the
    route produces (numbers, strings, arrays of numbers, arrays of
    strings, string-valued objects, and `undefined`).
-/

/-- JSON-like values used in the `details` field of error responses. -/
inductive JVal where
  | undef : JVal
  | num : Int → JVal
  | str : String → JVal
  | narr : List Int → JVal
  | sarr : List String → JVal
  | sobj : List (String × String) → JVal
deriving DecidableEq, Repr

/-- `details` value for a JS string-or-undefined. -/
def optJV : Option String → JVal
  | none => JVal.undef
  | some s => JVal.str s

/-- `details` value for a JS number-or-undefined. -/
def optJVInt : Option Int → JVal
  | none => JVal.undef
  | some n => JVal.num n

/-- An `ErrorResponse` as produced by `NextResponse.json<ErrorResponse>(...,
    \x7b status \x7d)`: the JSON body (`code`, `error`, optional `details`)
    together with the HTTP status it is sent with. -/
structure ErrResp where
  status : Nat
  code : String
  error : String
  details : Option (List (String × JVal))
deriving DecidableEq, Repr

/-- The parsed request body (type `RequestBody` in route.ts). Fields that the
    route reads are kept; fields it never reads (`targetAudience`,
    `summaryFormat`, `rewriteGoal`) are omitted. Fields that may be absent
    at runtime are `Option`s. -/
structure RequestBody where
  text : String
  mode : Option String
  tone : Option String
  summaryLengthLevel : Option Int
  model : Option String
  promptStructure : Option String
deriving DecidableEq, Repr

-- --- Constants for Validation (route.ts lines 8-27) ---

def MAX_INPUT_TEXT_LENGTH : Nat := 20000
def MIN_INPUT_TEXT_LENGTH : Nat := 10
def DEFAULT_MODEL : String := "gpt-3.5-turbo"
def VALID_MODELS : List String := ["gpt-3.5-turbo", "gpt-4"]
def validTones : List String := ["formal", "casual", "creative"]
def validSummaryLevels : List Int := [1, 2, 3, 4, 5]

/-- The `summaryDetailLevels` lookup object: keys 1..5; any other key is
    absent in JS (never accessed after validation), modelled as `""`. -/
def summaryDetailLevels (l : Int) : String :=
  if l = 1 then "Very Brief"
  else if l = 2 then "Short"
  else if l = 3 then "Medium"
  else if l = 4 then "Long"
  else if l = 5 then "Detailed"
  else ""

-- --- JS string trimming ---

/-- Characters removed by JS `String.prototype.trim` (ASCII whitespace plus
    the common Unicode whitespace/line terminators). -/
def jsWhitespace (c : Char) : Bool :=
  c = ' ' || c = '\t' || c = '\n' || c = '\r' ||
  c = '\x0b' || c = '\x0c' || c = '\u00A0' || c = '\uFEFF' ||
  c = '\u2028' || c = '\u2029'

/-- `text.trim()` on the character list of a string. -/
def jsTrim (l : List Char) : List Char :=
  ((l.dropWhile jsWhitespace).reverse.dropWhile jsWhitespace).reverse

/-- `text.trim().length`. -/
def trimmedLen (s : String) : Nat := (jsTrim s.data).length

-- --- Validation predicates (membership tests used by the checks) ---

/-- JS truthiness test for an optional string: `!x` holds when `x` is
    `undefined` or the empty string. -/
def jsFalsyS : Option String → Bool
  | none => true
  | some s => s = ""

/-- `summaryLengthLevel !== undefined/null && validSummaryLevels.includes(...)`. -/
def levelOk : Option Int → Bool
  | none => false
  | some v => validSummaryLevels.contains v

/-- `tone && validTones.includes(tone)`. -/
def toneOk : Option String → Bool
  | none => false
  | some t => !(t = "") && validTones.contains t

/-- `model && VALID_MODELS.includes(model)`. -/
def modelOk : Option String → Bool
  | none => false
  | some m => !(m = "") && VALID_MODELS.contains m

-- --- Error responses the route can return before the provider call ---

def missingApiKeyResp : ErrResp :=
  ⟨500, "MISSING_API_KEY", "Server configuration error. Please contact the administrator.", none⟩

def invalidJsonResp : ErrResp :=
  ⟨400, "INVALID_JSON", "Invalid request body: Must be valid JSON.", none⟩

def missingTextResp : ErrResp :=
  ⟨400, "MISSING_TEXT", "Input text cannot be empty.", none⟩

def tooShortResp (actual : Nat) : ErrResp :=
  ⟨400, "TEXT_TOO_SHORT",
   "Input text is too short. Please provide at least " ++
     toString MIN_INPUT_TEXT_LENGTH ++ " characters.",
   some [("minLength", JVal.num (MIN_INPUT_TEXT_LENGTH : Int)),
         ("actualLength", JVal.num (actual : Int))]⟩

def tooLongResp (actual : Nat) : ErrResp :=
  ⟨400, "TEXT_TOO_LONG",
   "Input text is too long. Please limit input to " ++
     toString MAX_INPUT_TEXT_LENGTH ++ " characters.",
   some [("maxLength", JVal.num (MAX_INPUT_TEXT_LENGTH : Int)),
         ("actualLength", JVal.num (actual : Int))]⟩

def invalidModeResp (m : Option String) : ErrResp :=
  ⟨400, "INVALID_MODE",
   "Invalid processing mode specified. Must be \x27summarize\x27 or \x27rewrite\x27.",
   some [("receivedMode", optJV m)]⟩

def missingSummaryLevelResp (l : Option Int) : ErrResp :=
  ⟨400, "MISSING_SUMMARY_LEVEL",
   "Invalid or missing summary detail level specified for summarize mode. Must be between " ++
     toString (validSummaryLevels.headD 0) ++ " and " ++
     toString (validSummaryLevels.getLastD 0) ++ ".",
   some [("receivedLevel", optJVInt l),
         ("validLevels", JVal.narr validSummaryLevels)]⟩

def missingToneResp (t : Option String) : ErrResp :=
  ⟨400, "MISSING_TONE",
   "Invalid or missing tone specified for rewrite mode. Must be one of: " ++
     String.intercalate ", " validTones ++ ".",
   some [("receivedTone", optJV t),
         ("validTones", JVal.sarr validTones)]⟩

def invalidModelResp (m : Option String) : ErrResp :=
  ⟨400, "INVALID_MODEL",
   "Invalid or missing model specified. Must be one of: " ++
     String.intercalate ", " VALID_MODELS ++ ".",
   some [("receivedModel", optJV m),
         ("validModels", JVal.sarr VALID_MODELS)]⟩

/-- The server-side validation stage of `POST` (checks 2a-2e, route.ts lines
    190-288) as a standalone function: the first failing check yields its
    error response, `none` means validation passed. -/
def validate (b : RequestBody) : Option ErrResp :=
  if b.text = "" ∨ trimmedLen b.text = 0 then
    some missingTextResp
  else if trimmedLen b.text < MIN_INPUT_TEXT_LENGTH then
    some (tooShortResp (trimmedLen b.text))
  else if trimmedLen b.text > MAX_INPUT_TEXT_LENGTH then
    some (tooLongResp (trimmedLen b.text))
  else if jsFalsyS b.mode ∨ (b.mode ≠ some "summarize" ∧ b.mode ≠ some "rewrite") then
    some (invalidModeResp b.mode)
  else if b.mode = some "summarize" ∧ ¬ levelOk b.summaryLengthLevel then
    some (missingSummaryLevelResp b.summaryLengthLevel)
  else if b.mode ≠ some "summarize" ∧ ¬ toneOk b.tone then
    some (missingToneResp b.tone)
  else if ¬ modelOk b.model then
    some (invalidModelResp b.model)
  else
    none

-- --- One-shot examples (route.ts lines 30-55) ---

/-- An input/output example pair from the `examples` object. -/
structure ExPair where
  input : String
  output : String
deriving DecidableEq, Repr

def examples_summarize_veryBrief : ExPair :=
  ⟨"The meteorological forecast predicts significant precipitation commencing in the early morning hours, potentially impacting commuter routes. Atmospheric pressure is dropping, indicating an approaching low-pressure system. Temperatures will remain moderate.",
   "Heavy rain expected early tomorrow, may affect commutes."⟩

def examples_summarize_detailed : ExPair :=
  ⟨"The company\x27s Q3 financial report shows a 15% revenue increase, driven by strong performance in the European market. Operating costs rose by 8%, primarily due to expanded R&D investments. The board approved a new dividend policy, increasing shareholder returns by 20%.",
   "The company achieved 15% revenue growth in Q3, led by European market success. While operating costs increased 8% due to R&D expansion, the board responded with a 20% dividend increase for shareholders."⟩

/-- `examples.rewrite[tone]`; the wildcard case is unreachable after
    validation (tone is then one of the three valid tones). -/
def examples_rewrite (t : String) : ExPair :=
  if t = "creative" then
    ⟨"The company announced its quarterly earnings, showing a 10% increase in profit.",
     "The company\x27s coffers swelled this quarter, boasting a shiny 10% boost in profits as announced."⟩
  else if t = "formal" then
    ⟨"The new product launch was a huge success, with sales going through the roof!",
     "The product launch achieved exceptional market performance, with sales exceeding all projections."⟩
  else if t = "casual" then
    ⟨"The implementation of the new policy resulted in a significant reduction in operational costs.",
     "The new policy really helped cut down on costs, making things run more smoothly around here."⟩
  else ⟨"", ""⟩

-- --- LLM parameter tables (route.ts lines 58-107) ---

/-- The `\x7b veryBrief, default, detailed \x7d` sub-objects of `LLM_PARAMS`. -/
structure SummOpt (α : Type) where
  veryBrief : α
  default : α
  detailed : α
deriving DecidableEq, Repr

/-- The `rewrite` temperature sub-object of `LLM_PARAMS`. -/
structure RewriteTemps where
  formal : ℚ
  casual : ℚ
  creative : ℚ
deriving DecidableEq, Repr

/-- The `rewrite` maxTokens sub-object of `LLM_PARAMS`. -/
structure RewriteMax where
  default : Nat
deriving DecidableEq, Repr

/-- The `temperature` sub-object of one model entry in `LLM_PARAMS`. -/
structure TempParams where
  summarize : SummOpt ℚ
  rewrite : RewriteTemps
deriving DecidableEq, Repr

/-- The `maxTokens` sub-object of one model entry in `LLM_PARAMS`. -/
structure TokenParams where
  summarize : SummOpt Nat
  rewrite : RewriteMax
deriving DecidableEq, Repr

/-- One model entry of `LLM_PARAMS`. -/
structure ModelParams where
  temperature : TempParams
  maxTokens : TokenParams
deriving DecidableEq, Repr

/-- The `LLM_PARAMS` object, indexed by model name. It has exactly the keys
    `gpt-3.5-turbo` and `gpt-4`; the lookup is only performed on
    `selectedModel`, which is always one of those, so the wildcard branch
    (mapped to the `gpt-3.5-turbo` entry) is unreachable. -/
def LLM_PARAMS (m : String) : ModelParams :=
  match m with
  | "gpt-4" =>
    ⟨⟨⟨0.2, 0.4, 0.6⟩, ⟨0.4, 0.6, 0.8⟩⟩, ⟨⟨512, 1024, 2048⟩, ⟨2048⟩⟩⟩
  | _ =>
    ⟨⟨⟨0.3, 0.5, 0.7⟩, ⟨0.5, 0.7, 0.9⟩⟩, ⟨⟨256, 512, 1024⟩, ⟨1024⟩⟩⟩

/-- `LLM_PARAMS[m].temperature.rewrite[tone]`; the wildcard case is
    unreachable (the lookup happens only in rewrite mode, after the tone
    was validated). -/
def rewriteTempFor (r : RewriteTemps) (t : String) : ℚ :=
  if t = "formal" then r.formal
  else if t = "casual" then r.casual
  else if t = "creative" then r.creative
  else 0

/-- The `temperature` argument of the completion call (route.ts lines 406-412). -/
def temperatureFor (selModel mode : String) (requestedLengthLevel : Int)
    (requestedTone : String) : ℚ :=
  if mode = "summarize" then
    if requestedLengthLevel ≤ 2 then (LLM_PARAMS selModel).temperature.summarize.veryBrief
    else if requestedLengthLevel ≥ 4 then (LLM_PARAMS selModel).temperature.summarize.detailed
    else (LLM_PARAMS selModel).temperature.summarize.default
  else rewriteTempFor (LLM_PARAMS selModel).temperature.rewrite requestedTone

/-- The `max_tokens` argument of the completion call (route.ts lines 413-419). -/
def maxTokensFor (selModel mode : String) (requestedLengthLevel : Int) : Nat :=
  if mode = "summarize" then
    if requestedLengthLevel ≤ 2 then (LLM_PARAMS selModel).maxTokens.summarize.veryBrief
    else if requestedLengthLevel ≥ 4 then (LLM_PARAMS selModel).maxTokens.summarize.detailed
    else (LLM_PARAMS selModel).maxTokens.summarize.default
  else (LLM_PARAMS selModel).maxTokens.rewrite.default

/-- `selectedModel` (route.ts lines 291-293): fall back to `DEFAULT_MODEL`
    when the model is not in `VALID_MODELS`. -/
def selectedModel (model : Option String) : String :=
  match model with
  | some m => if VALID_MODELS.contains m then m else DEFAULT_MODEL
  | none => DEFAULT_MODEL

-- --- Prompt construction (route.ts lines 297-398) ---

/-- One chat message (`ChatCompletionMessageParam`). -/
structure Msg where
  role : String
  content : String
deriving DecidableEq, Repr

/-- Step 3 of `POST`: build the `messages` array from the validated request
    fields. `mode` and `pstruct` are the strings the route works with after
    validation and defaulting. -/
def buildMessages (mode pstruct text : String) (tone : Option String)
    (summaryLengthLevel : Option Int) : List Msg :=
  let requestedTone := tone.getD "formal"
  let requestedLengthLevel := summaryLengthLevel.getD 3
  let requestedLengthDesc := summaryDetailLevels requestedLengthLevel
  if mode = "summarize" then
    let ex := if requestedLengthLevel ≤ 2 then examples_summarize_veryBrief
              else examples_summarize_detailed
    if pstruct = "system-heavy" then
      [⟨"system",
        "You are an expert AI text summarizer. Your task is to produce a concise and accurate summary of the user\x27s text.\nCRITICAL: Output *only* the summarized text. Do not include any introductory phrases, greetings, or conversational filler like \"Here is the summary:\".\nKey Requirements:\n- Adhere strictly to the requested detail level: \x27" ++
          requestedLengthDesc ++
          "\x27. Adjust length and detail accordingly.\n- Focus on extracting the main argument and key factual points.\n- Target audience is general; explain complex ideas simply if possible.\n- Ensure the summary flows well and is grammatically correct."⟩,
       ⟨"user", "Example Text:\n---\n" ++ ex.input ++ "\n---"⟩,
       ⟨"assistant", ex.output⟩,
       ⟨"user",
        "Please process the following text according to the requirements defined in the system prompt:\n\n" ++
          "---\n" ++ text ++ "\n---"⟩]
    else
      [⟨"system", "You are a helpful AI assistant capable of text processing."⟩,
       ⟨"user", "Example Text:\n---\n" ++ ex.input ++ "\n---"⟩,
       ⟨"assistant", ex.output⟩,
       ⟨"user",
        "Task: Summarize the following text.\nInput Text:\n" ++ "---\n" ++ text ++
          "\n---" ++ "\nConstraints:\n- Requested Detail Level: \x27" ++ requestedLengthDesc ++
          "\x27. Adjust summary length and detail accordingly.\n- Focus: Extract main argument and key factual points.\n- Audience: General audience, simplify complex ideas.\n- Quality: Ensure good flow and grammar.\n- Output Format: Output *only* the summarized text, without any introductory phrases."⟩]
  else
    let ex := examples_rewrite requestedTone
    if pstruct = "system-heavy" then
      [⟨"system",
        "You are a highly skilled AI text rewriter. Your objective is to rewrite the user\x27s text while precisely preserving the original meaning and all essential information.\nCRITICAL: Output *only* the rewritten text. No conversational filler.\nKey Requirements:\n- Strictly adhere to the requested tone: \x27" ++
          requestedTone ++
          "\x27.\n- Maintain this tone consistently throughout the output. (\x27Formal\x27 = no contractions, sophisticated vocabulary; \x27Casual\x27 = contractions, simpler language; \x27Creative\x27 = vivid language/analogies, no new facts).\n- Ensure the rewritten text is fluent, grammatically perfect, and easy to read."⟩,
       ⟨"user", "Example Text:\n---\n" ++ ex.input ++ "\n---"⟩,
       ⟨"assistant", ex.output⟩,
       ⟨"user",
        "Please rewrite the following text based on the system prompt instructions:\n\n" ++
          "---\n" ++ text ++ "\n---"⟩]
    else
      [⟨"system", "You are a helpful AI assistant capable of text processing."⟩,
       ⟨"user", "Example Text:\n---\n" ++ ex.input ++ "\n---"⟩,
       ⟨"assistant", ex.output⟩,
       ⟨"user",
        "Task: Rewrite the following text.\nInput Text:\n" ++ "---\n" ++ text ++
          "\n---" ++ "\nConstraints:\n- Requested Tone: \x27" ++ requestedTone ++
          "\x27. Adhere strictly and consistently. Maintain original meaning precisely. (\x27Formal\x27 = no contractions, etc.; \x27Casual\x27 = contractions, etc.; \x27Creative\x27 = vivid language/analogies, no new facts).\n- Quality: Ensure fluency and perfect grammar.\n- Output Format: Output *only* the rewritten text, no conversational filler."⟩]

/-- The arguments the route passes to
    `openai.chat.completions.create` (model, messages, temperature,
    max_tokens); producing one of these models "the provider call is made". -/
structure ProviderCall where
  model : String
  messages : List Msg
  temperature : ℚ
  maxTokens : Nat
deriving DecidableEq, Repr

/-- Steps 3-4 of `POST` (route.ts lines 290-420): the model selection,
    prompt construction and generation-parameter selection performed on a
    request that passed validation, yielding the arguments of the
    completion call. -/
def buildCall (b : RequestBody) : ProviderCall :=
  let selModel := selectedModel b.model
  let mode := b.mode.getD ""
  let pstruct := b.promptStructure.getD "system-heavy"
  let requestedTone := b.tone.getD "formal"
  let requestedLengthLevel := b.summaryLengthLevel.getD 3
  ⟨selModel,
   buildMessages mode pstruct b.text b.tone b.summaryLengthLevel,
   temperatureFor selModel mode requestedLengthLevel requestedTone,
   maxTokensFor selModel mode requestedLengthLevel⟩

/-- The `POST` handler up to the provider call: API-key precondition, JSON
    parsing outcome (`none` = parse failure), the five validation checks in
    source order (each early-returning its error response), then prompt and
    parameter construction (route.ts lines 154-420). An `Except.ok` value is
    the provider call the route performs; `Except.error` is the error
    response returned without any provider call. -/
def POST (apiKeyPresent : Bool) (body : Option RequestBody) : Except ErrResp ProviderCall :=
  if !apiKeyPresent then .error missingApiKeyResp
  else
    match body with
    | none => .error invalidJsonResp
    | some b =>
      if b.text = "" ∨ trimmedLen b.text = 0 then
        .error missingTextResp
      else if trimmedLen b.text < MIN_INPUT_TEXT_LENGTH then
        .error (tooShortResp (trimmedLen b.text))
      else if trimmedLen b.text > MAX_INPUT_TEXT_LENGTH then
        .error (tooLongResp (trimmedLen b.text))
      else if jsFalsyS b.mode ∨ (b.mode ≠ some "summarize" ∧ b.mode ≠ some "rewrite") then
        .error (invalidModeResp b.mode)
      else if b.mode = some "summarize" ∧ ¬ levelOk b.summaryLengthLevel then
        .error (missingSummaryLevelResp b.summaryLengthLevel)
      else if b.mode ≠ some "summarize" ∧ ¬ toneOk b.tone then
        .error (missingToneResp b.tone)
      else if ¬ modelOk b.model then
        .error (invalidModelResp b.model)
      else
        Except.ok (buildCall b)

-- --- The catch block: error classification (route.ts lines 433-546) ---

/-- The exception caught by `POST`: an `OpenAI.APIError` (with the fields
    the handler reads), a generic JS `Error`, or anything else. -/
inductive CaughtError where
  | apiError (status : Option Nat) (code : Option String) (type : Option String)
      (message : String) (headers : List (String × String))
  | jsError (name : String) (message : String) (stack : String)
  | unknownErr
deriving DecidableEq, Repr

/-- `error.status` rendered by JS template interpolation. -/
def statusToStr : Option Nat → String
  | some s => toString s
  | none => "undefined"

/-- `details` value for a JS number-or-undefined status. -/
def optJVNat : Option Nat → JVal
  | none => JVal.undef
  | some n => JVal.num (n : Int)

/-- The catch block of `POST`: classify the caught error into the
    `ErrorResponse` (with HTTP status) that the handler returns. `dev` is
    `NODE_ENV === \x27development\x27`. -/
def classifyCaught (dev : Bool) (e : CaughtError) : ErrResp :=
  match e with
  | .apiError status code type message headers =>
    let statusCode : Nat :=
      match status with
      | some s => if s = 0 then 500 else s
      | none => 500
    if status = some 400 then
      if code = some "content_filter" then
        ⟨statusCode, "AI_CONTENT_FILTER",
         "Your request was blocked due to the AI service\x27s content policy. Please modify your input text.",
         some [("code", optJV code), ("type", optJV type)]⟩
      else
        ⟨statusCode, "AI_BAD_REQUEST",
         "The request to the AI service was invalid. " ++
           (if message = "" then "Please check your input or configuration." else message),
         some [("code", optJV code), ("type", optJV type)]⟩
    else if status = some 401 then
      ⟨statusCode, "AI_AUTH_ERROR",
       "Authentication with the AI service failed. Please check server configuration.",
       some [("type", optJV type)]⟩
    else if status = some 429 then
      ⟨statusCode, "AI_RATE_LIMIT_ERROR",
       "The AI service is experiencing high traffic or rate limits have been exceeded. Please try again shortly.",
       some [("type", optJV type), ("headers", JVal.sobj headers)]⟩
    else if status = some 500 then
      ⟨statusCode, "AI_SERVER_ERROR",
       "The AI service encountered an internal error. Please try again later.",
       some [("type", optJV type)]⟩
    else if status = some 503 then
      ⟨statusCode, "AI_SERVICE_UNAVAILABLE",
       "The AI service is temporarily unavailable or overloaded. Please try again later.",
       some [("type", optJV type)]⟩
    else
      ⟨statusCode, "AI_API_ERROR",
       "An error occurred with the AI service (Status: " ++ statusToStr status ++ "). " ++
         (if message = "" then "Please try again." else message),
       some [("status", optJVNat status), ("code", optJV code), ("type", optJV type)]⟩
  | .jsError name message stack =>
    if dev then
      ⟨500, "INTERNAL_SERVER_ERROR", message,
       some [("name", JVal.str name), ("stack", JVal.str stack)]⟩
    else
      ⟨500, "INTERNAL_SERVER_ERROR", "An unexpected error occurred.", none⟩
  | .unknownErr =>
    ⟨500, "INTERNAL_SERVER_ERROR",
     "An unexpected error occurred while processing your request.", none⟩

-- --- History persistence (src/lib/historyUtils.ts) ---

/-- The `options` sub-object of a `HistoryEntry`, with the fields
    `isValidHistoryEntry` inspects. Enumerated JS strings are plain
    strings here (the `typeof` checks of the source hold by typing). -/
structure HistoryOptions where
  targetAudience : String
  tone : String
  summaryLengthLevel : Int
  summaryFormat : Option String
  rewriteGoal : Option String
deriving DecidableEq, Repr

/-- Modelled from the spec: the `HistoryEntry` record of `src/types/history.ts`
    (a file absent from the sources) — "`\x7b id: unique string, timestamp,
    inputText, outputText, mode, options \x7d`" (spec §3), with the exact field
    shapes that `isValidHistoryEntry` in src/lib/historyUtils.ts checks. -/
structure HistoryEntry where
  id : String
  timestamp : Int
  inputText : String
  outputText : String
  mode : String
  options : HistoryOptions
deriving DecidableEq, Repr

/-- `isValidHistoryEntry` (historyUtils.ts lines 38-78). The `typeof`
    field-shape checks hold by construction here; the enumeration and
    range checks are kept. -/
def isValidHistoryEntry (e : HistoryEntry) : Bool :=
  if e.mode ≠ "summarize" ∧ e.mode ≠ "rewrite" then false
  else if e.options.targetAudience = "" ∨
          ¬ (["general", "simple", "expert"].contains e.options.targetAudience) ∨
          e.options.tone = "" ∨
          ¬ (["formal", "casual", "creative"].contains e.options.tone) ∨
          e.options.summaryLengthLevel < 1 ∨
          e.options.summaryLengthLevel > 5 then false
  else if e.mode = "summarize" then
    match e.options.summaryFormat with
    | none => true
    | some sf => sf = "" || ["paragraph", "bullet-points"].contains sf
  else
    match e.options.rewriteGoal with
    | none => true
    | some rg => rg = "" || ["maintain-length", "make-shorter"].contains rg

/-- Modelled from the spec: `MAX_HISTORY_ENTRIES` is imported from
    `src/types/history.ts`, which is absent from the sources, and the spec
    does not pin its value (history persistence is "an external
    collaborator", §6). It is modelled as an arbitrary positive bound; the
    theorems below use only that it is positive. -/
def MAX_HISTORY_ENTRIES : Nat := 50

/-- The browser `localStorage` as seen through the `HISTORY_STORAGE_KEY`
    slot: availability (as probed by `isLocalStorageAvailable`), the parsed
    stored list (`none` = key absent), and a quota, modelled as the largest
    number of entries a `setItem` can store before throwing
    `QuotaExceededError`. -/
structure LocalStorage where
  available : Bool
  capacity : Nat
  history : Option (List HistoryEntry)
deriving DecidableEq, Repr

/-- `getHistoryFromLocalStorage` (historyUtils.ts lines 84-100): empty when
    unavailable or absent, otherwise the stored list filtered by
    `isValidHistoryEntry`. -/
def getHistoryFromLocalStorage (st : LocalStorage) : List HistoryEntry :=
  if !st.available then []
  else
    match st.history with
    | none => []
    | some l => l.filter isValidHistoryEntry

/-- `saveHistoryEntryToLocalStorage` (historyUtils.ts lines 107-142):
    returns the JS return value together with the localStorage state after
    the call. A `setItem` of a list longer than the capacity throws
    `QuotaExceededError` (leaving storage unchanged), which the source
    catches and retries after dropping the oldest entry. -/
def saveHistoryEntryToLocalStorage (st : LocalStorage) (entry : HistoryEntry) :
    Bool × LocalStorage :=
  if !st.available then (false, st)
  else
    let history := getHistoryFromLocalStorage st
    let trimmedHistory := (entry :: history).take MAX_HISTORY_ENTRIES
    if trimmedHistory.length ≤ st.capacity then
      (true, ⟨st.available, st.capacity, some trimmedHistory⟩)
    else
      let history2 := getHistoryFromLocalStorage st
      let retry := entry :: history2.dropLast
      if retry.length ≤ st.capacity then
        (true, ⟨st.available, st.capacity, some retry⟩)
      else
        (false, st)

/-- `clearHistoryFromLocalStorage` (historyUtils.ts lines 148-161). -/
def clearHistoryFromLocalStorage (st : LocalStorage) : Bool × LocalStorage :=
  if !st.available then (false, st)
  else (true, ⟨st.available, st.capacity, none⟩)

-- --- Helper lemmas on substring containment, at the String level ---

lemma strWithin_mid (a b c : String) : b.data <:+: (a ++ b ++ c).data :=
  ⟨a.data, c.data, by simp [String.data_append]⟩

lemma strWithin_wrap (a t : String) :
    ("---\n" ++ t ++ "\n---").data <:+: (a ++ "---\n" ++ t ++ "\n---").data :=
  ⟨a.data, [], by simp [String.data_append]⟩

lemma strWithin_extendR {x : List Char} {a : String} (b : String)
    (h : x <:+: a.data) : x <:+: (a ++ b).data := by
  obtain ⟨s, t, h'⟩ := h
  exact ⟨s, t ++ b.data, by simp [String.data_append, ← h']⟩

lemma strWithin_liftR {x : List Char} {b : String} (a : String)
    (h : x <:+: b.data) : x <:+: (a ++ b).data := by
  obtain ⟨s, t, h'⟩ := h
  exact ⟨a.data ++ s, t, by simp [String.data_append, ← h']⟩

/-- The last message of the prompt (all prompts built by the route have
    four messages, the last being the final user instruction). -/
def lastMsgD (l : List Msg) : Msg := l.getLastD ⟨"", ""⟩

/-- The first (system) message of the prompt. -/
def headMsgD (l : List Msg) : Msg := l.headD ⟨"", ""⟩

-- --- C1 ---

set_option maxRecDepth 100000 in
/-- C1 (counterexample): under `promptStructure = system-heavy`,
    `mode = summarize`, level 1, input text `0123456789`, the last message
    of the built prompt does NOT contain the detail-level label
    `Very Brief` (the label only appears in the system message), so the
    claim that the last message contains both the label and the delimited
    input text fails. -/
theorem C1_counterexample :
    ¬ ((("Very Brief" : String).data <:+:
          (lastMsgD (buildMessages "summarize" "system-heavy" "0123456789" none (some 1))).content.data) ∧
       (("---\n" ++ "0123456789" ++ "\n---" : String).data <:+:
          (lastMsgD (buildMessages "summarize" "system-heavy" "0123456789" none (some 1))).content.data)) := by
  decide

/-- C1 (amended): for `mode = summarize` and any level in 1..5, the input
    text appears verbatim inside a `---`-delimited block in the last
    message under both prompt structures; the exact detail-level label
    appears in the last message under `user-heavy`, and in the system
    (first) message under `system-heavy`. -/
theorem C1_summarize_prompt_amended (text : String) (lvl : Int)
    (h1 : 1 ≤ lvl) (h2 : lvl ≤ 5) :
    ((summaryDetailLevels lvl).data <:+:
       (lastMsgD (buildMessages "summarize" "user-heavy" text none (some lvl))).content.data) ∧
    (("---\n" ++ text ++ "\n---").data <:+:
       (lastMsgD (buildMessages "summarize" "user-heavy" text none (some lvl))).content.data) ∧
    (("---\n" ++ text ++ "\n---").data <:+:
       (lastMsgD (buildMessages "summarize" "system-heavy" text none (some lvl))).content.data) ∧
    ((summaryDetailLevels lvl).data <:+:
       (headMsgD (buildMessages "summarize" "system-heavy" text none (some lvl))).content.data) := by
  refine ⟨?_, ?_, ?_, ?_⟩
  · exact strWithin_mid
      ("Task: Summarize the following text.\nInput Text:\n" ++ "---\n" ++ text ++ "\n---" ++
        "\nConstraints:\n- Requested Detail Level: \x27")
      (summaryDetailLevels lvl)
      ("\x27. Adjust summary length and detail accordingly.\n- Focus: Extract main argument and key factual points.\n- Audience: General audience, simplify complex ideas.\n- Quality: Ensure good flow and grammar.\n- Output Format: Output *only* the summarized text, without any introductory phrases.")
  · exact strWithin_extendR
      ("\x27. Adjust summary length and detail accordingly.\n- Focus: Extract main argument and key factual points.\n- Audience: General audience, simplify complex ideas.\n- Quality: Ensure good flow and grammar.\n- Output Format: Output *only* the summarized text, without any introductory phrases.")
      (strWithin_extendR (summaryDetailLevels lvl)
        (strWithin_extendR ("\nConstraints:\n- Requested Detail Level: \x27")
          (strWithin_wrap "Task: Summarize the following text.\nInput Text:\n" text)))
  · exact strWithin_wrap
      "Please process the following text according to the requirements defined in the system prompt:\n\n"
      text
  · exact strWithin_mid
      ("You are an expert AI text summarizer. Your task is to produce a concise and accurate summary of the user\x27s text.\nCRITICAL: Output *only* the summarized text. Do not include any introductory phrases, greetings, or conversational filler like \"Here is the summary:\".\nKey Requirements:\n- Adhere strictly to the requested detail level: \x27")
      (summaryDetailLevels lvl)
      ("\x27. Adjust length and detail accordingly.\n- Focus on extracting the main argument and key factual points.\n- Target audience is general; explain complex ideas simply if possible.\n- Ensure the summary flows well and is grammatically correct.")

/-- Witness for C1 (amended) at `text = 0123456789`, level 2. -/
theorem C1_summarize_prompt_amended_witness :
    ((summaryDetailLevels 2).data <:+:
       (lastMsgD (buildMessages "summarize" "user-heavy" "0123456789" none (some 2))).content.data) ∧
    (("---\n" ++ "0123456789" ++ "\n---").data <:+:
       (lastMsgD (buildMessages "summarize" "user-heavy" "0123456789" none (some 2))).content.data) ∧
    (("---\n" ++ "0123456789" ++ "\n---").data <:+:
       (lastMsgD (buildMessages "summarize" "system-heavy" "0123456789" none (some 2))).content.data) ∧
    ((summaryDetailLevels 2).data <:+:
       (headMsgD (buildMessages "summarize" "system-heavy" "0123456789" none (some 2))).content.data) :=
  C1_summarize_prompt_amended "0123456789" 2 (by decide) (by decide)

-- --- C2 ---

set_option maxRecDepth 100000 in
/-- C2 (counterexample): for `mode = rewrite`, tone `formal`, input text
    `0123456789`: under `system-heavy` the last message does not contain
    the tone name at all (it only carries the delimited input text), and
    under `user-heavy` the last message contains the defining rule text of
    the other tones as well (e.g. the `Casual` rule), so the claim that the
    last message contains the tone name and no other tone's rule text
    fails under both prompt structures. -/
theorem C2_counterexample :
    (¬ (("formal" : String).data <:+:
         (lastMsgD (buildMessages "rewrite" "system-heavy" "0123456789" (some "formal") none)).content.data)) ∧
    (("\x27Casual\x27 = contractions" : String).data <:+:
       (lastMsgD (buildMessages "rewrite" "user-heavy" "0123456789" (some "formal") none)).content.data) := by
  constructor
  · decide
  · decide

set_option maxRecDepth 100000 in
/-- C2 (amended): for `mode = rewrite` and any valid tone, the requested
    tone's name appears in the system message under `system-heavy` and in
    the last message under `user-heavy`; the delimited input text appears
    verbatim in the last message under both structures; and the message
    carrying the tone instruction (system message for `system-heavy`, last
    message for `user-heavy`) contains the defining rule text of all three
    tones, not only the requested one's. -/
theorem C2_rewrite_prompt_amended (text : String) (tone : String)
    (h : tone ∈ validTones) :
    (tone.data <:+:
       (headMsgD (buildMessages "rewrite" "system-heavy" text (some tone) none)).content.data) ∧
    (("---\n" ++ text ++ "\n---").data <:+:
       (lastMsgD (buildMessages "rewrite" "system-heavy" text (some tone) none)).content.data) ∧
    (tone.data <:+:
       (lastMsgD (buildMessages "rewrite" "user-heavy" text (some tone) none)).content.data) ∧
    (("---\n" ++ text ++ "\n---").data <:+:
       (lastMsgD (buildMessages "rewrite" "user-heavy" text (some tone) none)).content.data) ∧
    (("\x27Formal\x27 = no contractions" : String).data <:+:
       (headMsgD (buildMessages "rewrite" "system-heavy" text (some tone) none)).content.data) ∧
    (("\x27Casual\x27 = contractions" : String).data <:+:
       (headMsgD (buildMessages "rewrite" "system-heavy" text (some tone) none)).content.data) ∧
    (("\x27Creative\x27 = vivid language/analogies, no new facts" : String).data <:+:
       (headMsgD (buildMessages "rewrite" "system-heavy" text (some tone) none)).content.data) ∧
    (("\x27Formal\x27 = no contractions" : String).data <:+:
       (lastMsgD (buildMessages "rewrite" "user-heavy" text (some tone) none)).content.data) ∧
    (("\x27Casual\x27 = contractions" : String).data <:+:
       (lastMsgD (buildMessages "rewrite" "user-heavy" text (some tone) none)).content.data) ∧
    (("\x27Creative\x27 = vivid language/analogies, no new facts" : String).data <:+:
       (lastMsgD (buildMessages "rewrite" "user-heavy" text (some tone) none)).content.data) := by
  refine ⟨?_, ?_, ?_, ?_, ?_, ?_, ?_, ?_, ?_, ?_⟩
  · exact strWithin_mid
      ("You are a highly skilled AI text rewriter. Your objective is to rewrite the user\x27s text while precisely preserving the original meaning and all essential information.\nCRITICAL: Output *only* the rewritten text. No conversational filler.\nKey Requirements:\n- Strictly adhere to the requested tone: \x27")
      tone
      ("\x27.\n- Maintain this tone consistently throughout the output. (\x27Formal\x27 = no contractions, sophisticated vocabulary; \x27Casual\x27 = contractions, simpler language; \x27Creative\x27 = vivid language/analogies, no new facts).\n- Ensure the rewritten text is fluent, grammatically perfect, and easy to read.")
  · exact strWithin_wrap
      "Please rewrite the following text based on the system prompt instructions:\n\n"
      text
  · exact strWithin_mid
      ("Task: Rewrite the following text.\nInput Text:\n" ++ "---\n" ++ text ++ "\n---" ++
        "\nConstraints:\n- Requested Tone: \x27")
      tone
      ("\x27. Adhere strictly and consistently. Maintain original meaning precisely. (\x27Formal\x27 = no contractions, etc.; \x27Casual\x27 = contractions, etc.; \x27Creative\x27 = vivid language/analogies, no new facts).\n- Quality: Ensure fluency and perfect grammar.\n- Output Format: Output *only* the rewritten text, no conversational filler.")
  · exact strWithin_extendR
      ("\x27. Adhere strictly and consistently. Maintain original meaning precisely. (\x27Formal\x27 = no contractions, etc.; \x27Casual\x27 = contractions, etc.; \x27Creative\x27 = vivid language/analogies, no new facts).\n- Quality: Ensure fluency and perfect grammar.\n- Output Format: Output *only* the rewritten text, no conversational filler.")
      (strWithin_extendR tone
        (strWithin_extendR ("\nConstraints:\n- Requested Tone: \x27")
          (strWithin_wrap "Task: Rewrite the following text.\nInput Text:\n" text)))
  · exact strWithin_liftR
      ("You are a highly skilled AI text rewriter. Your objective is to rewrite the user\x27s text while precisely preserving the original meaning and all essential information.\nCRITICAL: Output *only* the rewritten text. No conversational filler.\nKey Requirements:\n- Strictly adhere to the requested tone: \x27" ++ tone)
      (by decide)
  · exact strWithin_liftR
      ("You are a highly skilled AI text rewriter. Your objective is to rewrite the user\x27s text while precisely preserving the original meaning and all essential information.\nCRITICAL: Output *only* the rewritten text. No conversational filler.\nKey Requirements:\n- Strictly adhere to the requested tone: \x27" ++ tone)
      (by decide)
  · exact strWithin_liftR
      ("You are a highly skilled AI text rewriter. Your objective is to rewrite the user\x27s text while precisely preserving the original meaning and all essential information.\nCRITICAL: Output *only* the rewritten text. No conversational filler.\nKey Requirements:\n- Strictly adhere to the requested tone: \x27" ++ tone)
      (by decide)
  · exact strWithin_liftR
      ("Task: Rewrite the following text.\nInput Text:\n" ++ "---\n" ++ text ++ "\n---" ++
        "\nConstraints:\n- Requested Tone: \x27" ++ tone)
      (by decide)
  · exact strWithin_liftR
      ("Task: Rewrite the following text.\nInput Text:\n" ++ "---\n" ++ text ++ "\n---" ++
        "\nConstraints:\n- Requested Tone: \x27" ++ tone)
      (by decide)
  · exact strWithin_liftR
      ("Task: Rewrite the following text.\nInput Text:\n" ++ "---\n" ++ text ++ "\n---" ++
        "\nConstraints:\n- Requested Tone: \x27" ++ tone)
      (by decide)

/-- Witness for C2 (amended) at `text = 0123456789`, tone `casual`. -/
theorem C2_rewrite_prompt_amended_witness :
    (("casual" : String).data <:+:
       (headMsgD (buildMessages "rewrite" "system-heavy" "0123456789" (some "casual") none)).content.data) ∧
    (("---\n" ++ "0123456789" ++ "\n---").data <:+:
       (lastMsgD (buildMessages "rewrite" "system-heavy" "0123456789" (some "casual") none)).content.data) ∧
    (("casual" : String).data <:+:
       (lastMsgD (buildMessages "rewrite" "user-heavy" "0123456789" (some "casual") none)).content.data) ∧
    (("---\n" ++ "0123456789" ++ "\n---").data <:+:
       (lastMsgD (buildMessages "rewrite" "user-heavy" "0123456789" (some "casual") none)).content.data) ∧
    (("\x27Formal\x27 = no contractions" : String).data <:+:
       (headMsgD (buildMessages "rewrite" "system-heavy" "0123456789" (some "casual") none)).content.data) ∧
    (("\x27Casual\x27 = contractions" : String).data <:+:
       (headMsgD (buildMessages "rewrite" "system-heavy" "0123456789" (some "casual") none)).content.data) ∧
    (("\x27Creative\x27 = vivid language/analogies, no new facts" : String).data <:+:
       (headMsgD (buildMessages "rewrite" "system-heavy" "0123456789" (some "casual") none)).content.data) ∧
    (("\x27Formal\x27 = no contractions" : String).data <:+:
       (lastMsgD (buildMessages "rewrite" "user-heavy" "0123456789" (some "casual") none)).content.data) ∧
    (("\x27Casual\x27 = contractions" : String).data <:+:
       (lastMsgD (buildMessages "rewrite" "user-heavy" "0123456789" (some "casual") none)).content.data) ∧
    (("\x27Creative\x27 = vivid language/analogies, no new facts" : String).data <:+:
       (lastMsgD (buildMessages "rewrite" "user-heavy" "0123456789" (some "casual") none)).content.data) :=
  C2_rewrite_prompt_amended "0123456789" "casual" (by decide)

-- --- Helper lemmas relating POST to its validation stage ---

lemma POST_true_some (b : RequestBody) :
    POST true (some b) =
      (match validate b with
       | some e => Except.error e
       | none => Except.ok (buildCall b)) := by
  unfold POST validate
  norm_num
  split_ifs <;> rfl

lemma validate_none_modelOk {b : RequestBody} (h : validate b = none) :
    modelOk b.model = true := by
  unfold validate at h
  split_ifs at h with h1 h2 h3 h4 h5 h6 h7
  simpa using h7

/-- Checks 2a and 2b pass: text present and of trimmed length within bounds. -/
def textOk (b : RequestBody) : Prop :=
  ¬ (b.text = "" ∨ trimmedLen b.text = 0) ∧
  MIN_INPUT_TEXT_LENGTH ≤ trimmedLen b.text ∧
  trimmedLen b.text ≤ MAX_INPUT_TEXT_LENGTH

/-- Checks 2c, 2d and 2e pass: mode, the mode-specific option and the model
    are valid. -/
def otherFieldsOk (b : RequestBody) : Prop :=
  ¬ (jsFalsyS b.mode = true ∨ (b.mode ≠ some "summarize" ∧ b.mode ≠ some "rewrite")) ∧
  (b.mode = some "summarize" → levelOk b.summaryLengthLevel = true) ∧
  (b.mode ≠ some "summarize" → toneOk b.tone = true) ∧
  modelOk b.model = true

deriving instance DecidableEq for Except

instance (b : RequestBody) : Decidable (textOk b) := by
  unfold textOk; infer_instance

instance (b : RequestBody) : Decidable (otherFieldsOk b) := by
  unfold otherFieldsOk; infer_instance

lemma validate_mode_stage {b : RequestBody} (ht : textOk b) :
    validate b =
      (if jsFalsyS b.mode ∨ (b.mode ≠ some "summarize" ∧ b.mode ≠ some "rewrite") then
        some (invalidModeResp b.mode)
      else if b.mode = some "summarize" ∧ ¬ levelOk b.summaryLengthLevel then
        some (missingSummaryLevelResp b.summaryLengthLevel)
      else if b.mode ≠ some "summarize" ∧ ¬ toneOk b.tone then
        some (missingToneResp b.tone)
      else if ¬ modelOk b.model then
        some (invalidModelResp b.model)
      else none) := by
  obtain ⟨ht1, ht2, ht3⟩ := ht
  unfold validate
  rw [if_neg ht1, if_neg (Nat.not_lt.mpr ht2), if_neg (Nat.not_lt.mpr ht3)]

lemma textCheck_ne {b : RequestBody} {n : Nat} (hl : trimmedLen b.text = n)
    (hn : n ≠ 0) : ¬ (b.text = "" ∨ trimmedLen b.text = 0) := by
  rintro (h | h)
  · rw [h, show trimmedLen "" = 0 from rfl] at hl
    exact hn hl.symm
  · omega

-- --- C3 ---

set_option maxRecDepth 100000 in
/-- C3 (counterexample): with valid text and mode, an out-of-range
    `summaryLengthLevel` (7) in summarize mode is rejected with error code
    `MISSING_SUMMARY_LEVEL`, not `INVALID_SUMMARY_LEVEL`, and an invalid
    tone (`angry`) in rewrite mode is rejected with `MISSING_TONE`, not
    `INVALID_TONE` (the `INVALID_*` codes are declared in the `ErrorCode`
    union of route.ts but never produced). -/
theorem C3_counterexample :
    (POST true (some ⟨"0123456789", some "summarize", none, some 7, some "gpt-4", none⟩) =
        Except.error (missingSummaryLevelResp (some 7)) ∧
      (missingSummaryLevelResp (some 7)).code = "MISSING_SUMMARY_LEVEL" ∧
      (missingSummaryLevelResp (some 7)).code ≠ "INVALID_SUMMARY_LEVEL") ∧
    (POST true (some ⟨"0123456789", some "rewrite", some "angry", none, some "gpt-4", none⟩) =
        Except.error (missingToneResp (some "angry")) ∧
      (missingToneResp (some "angry")).code = "MISSING_TONE" ∧
      (missingToneResp (some "angry")).code ≠ "INVALID_TONE") := by
  decide

/-- C3 (amended): for every request with valid text, length, and mode: if
    `mode = summarize` and `summaryLengthLevel` is missing or not in 1..5,
    the handler returns an HTTP 400 ErrorResponse with code
    `MISSING_SUMMARY_LEVEL`; if `mode = rewrite` and `tone` is missing or
    not one of formal/casual/creative, it returns an HTTP 400 ErrorResponse
    with code `MISSING_TONE`. -/
theorem C3_mode_option_codes_amended :
    (∀ b : RequestBody, textOk b → b.mode = some "summarize" →
        ¬ levelOk b.summaryLengthLevel = true →
        POST true (some b) = Except.error (missingSummaryLevelResp b.summaryLengthLevel)) ∧
    (∀ b : RequestBody, textOk b → b.mode = some "rewrite" →
        ¬ toneOk b.tone = true →
        POST true (some b) = Except.error (missingToneResp b.tone)) ∧
    (∀ l : Option Int, (missingSummaryLevelResp l).status = 400 ∧
        (missingSummaryLevelResp l).code = "MISSING_SUMMARY_LEVEL") ∧
    (∀ t : Option String, (missingToneResp t).status = 400 ∧
        (missingToneResp t).code = "MISSING_TONE") := by
  refine ⟨?_, ?_, ?_, ?_⟩
  · intro b ht hm hl
    rw [POST_true_some, validate_mode_stage ht, hm]
    rw [if_neg (by decide), if_pos ⟨rfl, hl⟩]
  · intro b ht hm hto
    rw [POST_true_some, validate_mode_stage ht, hm]
    rw [if_neg (by decide), if_neg (by simp), if_pos ⟨by decide, hto⟩]
  · intro l; exact ⟨rfl, rfl⟩
  · intro t; exact ⟨rfl, rfl⟩

/-- Witness for C3 (amended): level 7 in summarize mode, tone `angry` in
    rewrite mode. -/
theorem C3_mode_option_codes_amended_witness :
    POST true (some ⟨"0123456789", some "summarize", none, some 7, some "gpt-4", none⟩) =
      Except.error (missingSummaryLevelResp (some 7)) ∧
    POST true (some ⟨"0123456789", some "rewrite", some "angry", none, some "gpt-4", none⟩) =
      Except.error (missingToneResp (some "angry")) ∧
    (missingSummaryLevelResp (some 7)).status = 400 ∧
    (missingSummaryLevelResp (some 7)).code = "MISSING_SUMMARY_LEVEL" ∧
    (missingToneResp (some "angry")).status = 400 ∧
    (missingToneResp (some "angry")).code = "MISSING_TONE" :=
  ⟨C3_mode_option_codes_amended.1 _ (by decide) rfl (by decide),
   C3_mode_option_codes_amended.2.1 _ (by decide) rfl (by decide),
   (C3_mode_option_codes_amended.2.2.1 (some 7)).1,
   (C3_mode_option_codes_amended.2.2.1 (some 7)).2,
   (C3_mode_option_codes_amended.2.2.2 (some "angry")).1,
   (C3_mode_option_codes_amended.2.2.2 (some "angry")).2⟩

-- --- C5 ---

/-- C5: for every request whose mode, mode-specific option and model are
    valid, a trimmed text length of 9 is rejected with an HTTP 400
    `TEXT_TOO_SHORT` response carrying the minimum and the actual length in
    `details`; a trimmed length of 20001 is rejected with `TEXT_TOO_LONG`
    carrying the maximum and the actual length; trimmed lengths 10 and
    20000 pass validation (the provider call is reached). -/
theorem C5_text_length_boundaries :
    (∀ b : RequestBody, otherFieldsOk b → trimmedLen b.text = 9 →
        POST true (some b) = Except.error
          ⟨400, "TEXT_TOO_SHORT",
           "Input text is too short. Please provide at least 10 characters.",
           some [("minLength", JVal.num 10), ("actualLength", JVal.num 9)]⟩) ∧
    (∀ b : RequestBody, otherFieldsOk b → trimmedLen b.text = 20001 →
        POST true (some b) = Except.error
          ⟨400, "TEXT_TOO_LONG",
           "Input text is too long. Please limit input to 20000 characters.",
           some [("maxLength", JVal.num 20000), ("actualLength", JVal.num 20001)]⟩) ∧
    (∀ b : RequestBody, otherFieldsOk b → trimmedLen b.text = 10 →
        (POST true (some b)).isOk = true) ∧
    (∀ b : RequestBody, otherFieldsOk b → trimmedLen b.text = 20000 →
        (POST true (some b)).isOk = true) := by
  refine ⟨?_, ?_, ?_, ?_⟩
  · intro b ho hl
    have hv : validate b = some (tooShortResp (trimmedLen b.text)) := by
      unfold validate
      rw [if_neg (textCheck_ne hl (by decide)), if_pos (by rw [hl]; decide)]
    rw [POST_true_some, hv, hl]
    rfl
  · intro b ho hl
    have hv : validate b = some (tooLongResp (trimmedLen b.text)) := by
      unfold validate
      rw [if_neg (textCheck_ne hl (by decide)), if_neg (by rw [hl]; decide),
          if_pos (by rw [hl]; decide)]
    rw [POST_true_some, hv, hl]
    rfl
  · intro b ho hl
    obtain ⟨ho1, ho2, ho3, ho4⟩ := ho
    have hv : validate b = none := by
      unfold validate
      rw [if_neg (textCheck_ne hl (by decide)), if_neg (by rw [hl]; decide),
          if_neg (by rw [hl]; decide), if_neg ho1,
          if_neg (by rintro ⟨hm, hlv⟩; exact hlv (ho2 hm)),
          if_neg (by rintro ⟨hm, htn⟩; exact htn (ho3 hm)),
          if_neg (not_not_intro ho4)]
    rw [POST_true_some, hv]
    rfl
  · intro b ho hl
    obtain ⟨ho1, ho2, ho3, ho4⟩ := ho
    have hv : validate b = none := by
      unfold validate
      rw [if_neg (textCheck_ne hl (by decide)), if_neg (by rw [hl]; decide),
          if_neg (by rw [hl]; decide), if_neg ho1,
          if_neg (by rintro ⟨hm, hlv⟩; exact hlv (ho2 hm)),
          if_neg (by rintro ⟨hm, htn⟩; exact htn (ho3 hm)),
          if_neg (not_not_intro ho4)]
    rw [POST_true_some, hv]
    rfl

lemma trimmedLen_replicate (n : Nat) :
    trimmedLen (String.mk (List.replicate n 'a')) = n := by
  have hdw : ∀ m : Nat,
      List.dropWhile jsWhitespace (List.replicate m 'a') = List.replicate m 'a' := by
    intro m
    cases m with
    | zero => rfl
    | succ k =>
      rw [List.replicate_succ, List.dropWhile_cons,
        show jsWhitespace 'a' = false from rfl]
      simp [List.replicate_succ]
  unfold trimmedLen jsTrim
  rw [show (String.mk (List.replicate n 'a')).data = List.replicate n 'a' from rfl,
      hdw, List.reverse_replicate, hdw, List.reverse_replicate, List.length_replicate]

/-- Witness for C5: texts of 9, 20001, 10 and 20000 repeated characters. -/
theorem C5_text_length_boundaries_witness :
    POST true (some ⟨String.mk (List.replicate 9 'a'), some "summarize", none,
        some 3, some "gpt-3.5-turbo", none⟩) =
      Except.error
        ⟨400, "TEXT_TOO_SHORT",
         "Input text is too short. Please provide at least 10 characters.",
         some [("minLength", JVal.num 10), ("actualLength", JVal.num 9)]⟩ ∧
    POST true (some ⟨String.mk (List.replicate 20001 'a'), some "summarize", none,
        some 3, some "gpt-3.5-turbo", none⟩) =
      Except.error
        ⟨400, "TEXT_TOO_LONG",
         "Input text is too long. Please limit input to 20000 characters.",
         some [("maxLength", JVal.num 20000), ("actualLength", JVal.num 20001)]⟩ ∧
    (POST true (some ⟨String.mk (List.replicate 10 'a'), some "summarize", none,
        some 3, some "gpt-3.5-turbo", none⟩)).isOk = true ∧
    (POST true (some ⟨String.mk (List.replicate 20000 'a'), some "summarize", none,
        some 3, some "gpt-3.5-turbo", none⟩)).isOk = true :=
  ⟨C5_text_length_boundaries.1 _ (by decide) (trimmedLen_replicate 9),
   C5_text_length_boundaries.2.1 _ (by decide) (trimmedLen_replicate 20001),
   C5_text_length_boundaries.2.2.1 _ (by decide) (trimmedLen_replicate 10),
   C5_text_length_boundaries.2.2.2 _ (by decide) (trimmedLen_replicate 20000)⟩

-- --- C6 ---

/-- C6: a request failing any validation check yields the first failing
    check's error response and never produces a provider call; a provider
    call is produced only when validation fully passes; and with
    otherwise-valid fields, `mode = translate` is rejected with
    `INVALID_MODE`. -/
theorem C6_validation_short_circuit :
    (∀ (b : RequestBody) (e : ErrResp), validate b = some e →
        POST true (some b) = Except.error e) ∧
    (∀ (b : RequestBody) (c : ProviderCall), POST true (some b) = Except.ok c →
        validate b = none) ∧
    (∀ b : RequestBody, textOk b → b.mode = some "translate" →
        POST true (some b) = Except.error (invalidModeResp (some "translate"))) := by
  refine ⟨?_, ?_, ?_⟩
  · intro b e h
    rw [POST_true_some, h]
  · intro b c h
    rw [POST_true_some] at h
    cases hv : validate b with
    | none => rfl
    | some e =>
      rw [hv] at h
      exact absurd h (by simp [Except.isOk, Except.toBool])
  · intro b ht hm
    rw [POST_true_some, validate_mode_stage ht, hm]
    rw [if_pos (Or.inr ⟨by decide, by decide⟩)]

/-- Witness for C6: an empty-text request errors with `MISSING_TEXT`, and a
    `translate`-mode request errors with `INVALID_MODE`. -/
theorem C6_validation_short_circuit_witness :
    POST true (some ⟨"", some "summarize", none, some 3, some "gpt-4", none⟩) =
      Except.error missingTextResp ∧
    POST true (some ⟨"0123456789", some "translate", some "formal", some 3,
        some "gpt-4", none⟩) =
      Except.error (invalidModeResp (some "translate")) :=
  ⟨C6_validation_short_circuit.1 _ missingTextResp (by decide),
   C6_validation_short_circuit.2.2 _ (by decide) rfl⟩

-- --- C9 ---

/-- C9: whenever the handler reaches the provider call, the model it sends
    is exactly the request's `model` field: the `DEFAULT_MODEL` fallback in
    the `selectedModel` computation is never taken, because any model
    outside `VALID_MODELS` was already rejected with `INVALID_MODEL`. -/
theorem C9_model_hard_rejection (b : RequestBody)
    (h : (POST true (some b)).isOk = true) :
    (POST true (some b)).toOption.map ProviderCall.model = b.model := by
  rw [POST_true_some] at h ⊢
  cases hv : validate b with
  | some e =>
    rw [hv] at h
    exact absurd h (by simp [Except.isOk, Except.toBool])
  | none =>
    have hmod := validate_none_modelOk hv
    cases hb : b.model with
    | none => rw [hb] at hmod; exact absurd hmod (by decide)
    | some m =>
      rw [hb] at hmod
      simp only [modelOk, Bool.and_eq_true] at hmod
      simp [Except.toOption, buildCall, selectedModel, hb, hmod.2]
      intro hnot
      exact absurd (by simpa using hmod.2) hnot

/-- Witness for C9: a valid request with `model = gpt-4`. -/
theorem C9_model_hard_rejection_witness :
    (POST true (some ⟨"0123456789", some "summarize", none, some 3,
        some "gpt-4", none⟩)).toOption.map ProviderCall.model = some "gpt-4" :=
  C9_model_hard_rejection
    ⟨"0123456789", some "summarize", none, some 3, some "gpt-4", none⟩ (by decide)

-- --- C4 ---

/-- C4: when the provider call raises an API error with HTTP status `s`,
    the handler's response preserves status `s` and carries the code
    determined by the status: 400 with content-policy flag →
    `AI_CONTENT_FILTER`, 400 otherwise → `AI_BAD_REQUEST`, 401 →
    `AI_AUTH_ERROR`, 429 → `AI_RATE_LIMIT_ERROR`, 500 → `AI_SERVER_ERROR`,
    503 → `AI_SERVICE_UNAVAILABLE`, anything else → `AI_API_ERROR`. -/
theorem C4_provider_error_mapping (s : Nat) (code type : Option String)
    (message : String) (headers : List (String × String)) (dev : Bool)
    (hs : s ≠ 0) :
    (classifyCaught dev (CaughtError.apiError (some s) code type message headers)).status = s ∧
    (classifyCaught dev (CaughtError.apiError (some s) code type message headers)).code =
      (if s = 400 then
        (if code = some "content_filter" then "AI_CONTENT_FILTER" else "AI_BAD_REQUEST")
      else if s = 401 then "AI_AUTH_ERROR"
      else if s = 429 then "AI_RATE_LIMIT_ERROR"
      else if s = 500 then "AI_SERVER_ERROR"
      else if s = 503 then "AI_SERVICE_UNAVAILABLE"
      else "AI_API_ERROR") := by
  constructor
  · simp only [classifyCaught]
    split_ifs <;> simp_all
  · simp only [classifyCaught]
    split_ifs <;> simp_all

/-- Witness for C4: a simulated provider HTTP 429 maps to
    `AI_RATE_LIMIT_ERROR` with status 429 preserved. -/
theorem C4_provider_error_mapping_witness :
    (classifyCaught false (CaughtError.apiError (some 429) none none "" [])).status = 429 ∧
    (classifyCaught false (CaughtError.apiError (some 429) none none "" [])).code =
      "AI_RATE_LIMIT_ERROR" := by
  have h := C4_provider_error_mapping 429 none none "" [] false (by decide)
  exact ⟨h.1, by rw [h.2]; decide⟩

-- --- C7 ---

/-- C7: a caught non-provider local exception produces an HTTP 500
    `INTERNAL_SERVER_ERROR` response; in production (non-development) the
    message is the generic text and no details are attached, while in
    development the response carries the exception's own message plus its
    name and stack in `details`. -/
theorem C7_internal_error_privacy (name message stack : String) :
    classifyCaught false (CaughtError.jsError name message stack) =
      ⟨500, "INTERNAL_SERVER_ERROR", "An unexpected error occurred.", none⟩ ∧
    classifyCaught true (CaughtError.jsError name message stack) =
      ⟨500, "INTERNAL_SERVER_ERROR", message,
        some [("name", JVal.str name), ("stack", JVal.str stack)]⟩ :=
  ⟨rfl, rfl⟩

-- --- C8 ---

/-- C8: for both supported models, the summarize `max_tokens` value is
    monotonically non-decreasing in the detail level over 1..5 and differs
    between levels 1 and 5; and for every mode/option the gpt-4 value is
    strictly larger than the gpt-3.5-turbo value. -/
theorem C8_max_tokens_scaling :
    (∀ m ∈ VALID_MODELS, ∀ l₁ l₂ : Int, 1 ≤ l₁ → l₁ ≤ l₂ → l₂ ≤ 5 →
        maxTokensFor m "summarize" l₁ ≤ maxTokensFor m "summarize" l₂) ∧
    (∀ m ∈ VALID_MODELS,
        maxTokensFor m "summarize" 1 ≠ maxTokensFor m "summarize" 5) ∧
    (∀ l : Int, maxTokensFor "gpt-3.5-turbo" "summarize" l <
        maxTokensFor "gpt-4" "summarize" l) ∧
    (∀ l : Int, maxTokensFor "gpt-3.5-turbo" "rewrite" l <
        maxTokensFor "gpt-4" "rewrite" l) := by
  refine ⟨?_, ?_, ?_, ?_⟩
  · intro m hm l₁ l₂ hl1 hl12 hl2
    simp only [VALID_MODELS, List.mem_cons, List.not_mem_nil, or_false] at hm
    rcases hm with rfl | rfl <;>
      (simp only [maxTokensFor]; split_ifs <;> first | decide | omega)
  · intro m hm
    simp only [VALID_MODELS, List.mem_cons, List.not_mem_nil, or_false] at hm
    rcases hm with rfl | rfl <;> decide
  · intro l
    simp only [maxTokensFor]
    split_ifs <;> first | decide | omega
  · intro l
    simp only [maxTokensFor]
    split_ifs <;> first | decide | omega

/-- Witness for C8 at levels 1, 3, 5 on both models. -/
theorem C8_max_tokens_scaling_witness :
    maxTokensFor "gpt-4" "summarize" 1 ≤ maxTokensFor "gpt-4" "summarize" 5 ∧
    maxTokensFor "gpt-4" "summarize" 1 ≠ maxTokensFor "gpt-4" "summarize" 5 ∧
    maxTokensFor "gpt-3.5-turbo" "summarize" 3 < maxTokensFor "gpt-4" "summarize" 3 ∧
    maxTokensFor "gpt-3.5-turbo" "rewrite" 3 < maxTokensFor "gpt-4" "rewrite" 3 :=
  ⟨C8_max_tokens_scaling.1 "gpt-4" (by decide) 1 5 (by decide) (by decide) (by decide),
   C8_max_tokens_scaling.2.1 "gpt-4" (by decide),
   C8_max_tokens_scaling.2.2.1 3,
   C8_max_tokens_scaling.2.2.2 3⟩

-- --- C10 ---

/-- C10: a successful `saveHistoryEntryToLocalStorage` leaves the stored
    list starting with the new entry and never longer than
    `MAX_HISTORY_ENTRIES`; when localStorage is unavailable the function
    returns `false` and leaves the state unchanged. -/
theorem C10_save_history_invariants (st : LocalStorage) (e : HistoryEntry) :
    (∀ l : List HistoryEntry,
        (saveHistoryEntryToLocalStorage st e).1 = true →
        (saveHistoryEntryToLocalStorage st e).2.history = some l →
        l.head? = some e ∧ l.length ≤ MAX_HISTORY_ENTRIES) ∧
    (st.available = false →
        saveHistoryEntryToLocalStorage st e = (false, st)) := by
  constructor
  · intro l h1 h2
    unfold saveHistoryEntryToLocalStorage at h1 h2
    by_cases hav : st.available = true
    · simp only [hav, Bool.not_true, Bool.false_eq_true, if_false] at h1 h2
      split_ifs at h1 h2 with hq hr
      · simp only [Option.some.injEq] at h2
        subst h2
        refine ⟨?_, ?_⟩
        · rw [show MAX_HISTORY_ENTRIES = 49 + 1 from rfl, List.take_succ_cons]
          rfl
        · simp only [List.length_take]
          omega
      · simp only [Option.some.injEq] at h2
        subst h2
        refine ⟨rfl, ?_⟩
        simp only [List.length_take, MAX_HISTORY_ENTRIES, not_le] at hq
        simp only [List.length_cons, List.length_dropLast] at hr ⊢
        rw [show MAX_HISTORY_ENTRIES = 50 from rfl]
        omega
    · rw [Bool.not_eq_true] at hav
      simp only [hav, Bool.not_false, if_true] at h1
      exact absurd h1 (by simp)
  · intro hav
    unfold saveHistoryEntryToLocalStorage
    rw [hav]
    rfl

def sampleEntry : HistoryEntry :=
  ⟨"id-1", 0, "input text", "output text", "summarize",
   ⟨"general", "formal", 3, none, none⟩⟩

/-- Witness for C10: saving into an empty available store puts the entry in
    front within the bound; saving into an unavailable store returns false
    and leaves it unchanged. -/
theorem C10_save_history_invariants_witness :
    (([sampleEntry] : List HistoryEntry).head? = some sampleEntry ∧
      ([sampleEntry] : List HistoryEntry).length ≤ MAX_HISTORY_ENTRIES) ∧
    saveHistoryEntryToLocalStorage ⟨false, 100, none⟩ sampleEntry =
      (false, ⟨false, 100, none⟩) :=
  ⟨(C10_save_history_invariants ⟨true, 100, some []⟩ sampleEntry).1 [sampleEntry]
      (by decide) (by decide),
   (C10_save_history_invariants ⟨false, 100, none⟩ sampleEntry).2 rfl⟩
